import Mathlib

/-!
Shallow embedding of `src/streamlit_seo_dashboard.py` (salasar-seo-dashboard).

Dates are embedded as proleptic-Gregorian day numbers (`ℤ`), mirroring the
semantics of Python's `datetime.date` arithmetic (`timedelta(days=k)` is
addition of `k`, `relativedelta(months=1)` on a first-of-month date is the
first day of the next month).  External Google API clients are embedded as
function parameters returning `Except Exc α`: a Python exception raised by a
client call is `Except.error`, and un-caught exceptions propagate through
`Except` sequencing exactly as they propagate out of the Python call sites.
-/

namespace SeoDashboard

/-- Gregorian leap-year test, as implemented by Python's `datetime`/`dateutil`
calendar that the source relies on. -/
def isLeap (y : ℕ) : Bool :=
  (y % 4 == 0 && y % 100 != 0) || (y % 400 == 0)

/-- Number of days in month `m` (1–12) of year `y`. -/
def daysInMonth (y m : ℕ) : ℕ :=
  if m = 2 then (if isLeap y then 29 else 28)
  else if m = 4 ∨ m = 6 ∨ m = 9 ∨ m = 11 then 30
  else 31

/-- Days in year `y` that precede the first day of month `m`. -/
def daysBeforeMonth (y : ℕ) : ℕ → ℕ
  | 0 => 0
  | m + 1 => daysBeforeMonth y m + (if m = 0 then 0 else daysInMonth y m)

/-- Number of leap years in `[0, y)` (year 0 counted as a leap year, as in the
proleptic Gregorian calendar). -/
def leapsBefore (y : ℕ) : ℕ :=
  (y + 3) / 4 - (y + 99) / 100 + (y + 399) / 400

/-- Days in the years `[0, y)`. -/
def daysBeforeYear (y : ℕ) : ℕ :=
  365 * y + leapsBefore y

/-- Day number of the calendar date `y-m-d` (1-based month and day). -/
def toDay (y m d : ℕ) : ℤ :=
  ((daysBeforeYear y + daysBeforeMonth y m + d : ℕ) : ℤ)

/-- Embedding of `relativedelta(months=1)` applied to the first day of month
`(y, m)`: the first day of the following month (no day clamping on day 1). -/
def addMonth (y m : ℕ) : ℕ × ℕ :=
  if m = 12 then (y + 1, 1) else (y, m + 1)

/-- The four dates returned by `get_date_ranges`
(`start_date`, `end_date`, `prev_start`, `prev_end`), as day numbers.
The source formats them as `YYYY-MM-DD` strings; the formatting is a
bijective rendering of the dates and is not modelled. -/
structure Windows where
  start_date : ℤ
  end_date : ℤ
  prev_start : ℤ
  prev_end : ℤ
  deriving Repr, DecidableEq

/-- Embedding of `get_date_ranges` with `use_month_selector=True`, after the sidebar
selection resolved to the month `(y, m)`: `start_date = sel_date.replace(day=1)`,
`end_date = start_date + relativedelta(months=1) - timedelta(days=1)`, then
`prev_end = start_date - timedelta(days=1)` and
`prev_start = prev_end - (end_date - start_date)` (lines 78–93). -/
def get_date_ranges_month (y m : ℕ) : Windows :=
  let start_date := toDay y m 1
  let nxt := addMonth y m
  let end_date := toDay nxt.1 nxt.2 1 - 1
  let prev_end := start_date - 1
  let prev_start := prev_end - (end_date - start_date)
  ⟨start_date, end_date, prev_start, prev_end⟩

/-- Embedding of `get_date_ranges` with `use_month_selector=False`:
`end_date = date.today()`, `start_date = end_date - timedelta(days=30)`, then
the same previous-window derivation (lines 87–93). -/
def get_date_ranges_fixed (today : ℤ) : Windows :=
  let end_date := today
  let start_date := end_date - 30
  let prev_end := start_date - 1
  let prev_start := prev_end - (end_date - start_date)
  ⟨start_date, end_date, prev_start, prev_end⟩

/-- Embedding of `get_date_ranges(use_month_selector)` (lines 73–93), with the runtime
inputs (today's date, and the month resolved from the sidebar selection)
made explicit. -/
def get_date_ranges (use_month_selector : Bool) (today : ℤ) (selY selM : ℕ) :
    Windows :=
  if use_month_selector then get_date_ranges_month selY selM
  else get_date_ranges_fixed today

/-- Modelled from the spec: `computeWindows(referenceDate, lengthDays)`, the
`lengthDays`-parameterised fixed-length mode of §4.1.  The source instantiates
it only at `lengthDays = 30` (`get_date_ranges_fixed`): `current.end =
referenceDate`, `current.start = referenceDate − lengthDays`, `previous.end =
current.start − 1 day`, `previous.start = previous.end − lengthDays`. -/
def computeWindows (referenceDate lengthDays : ℤ) : Windows :=
  let end_date := referenceDate
  let start_date := end_date - lengthDays
  let prev_end := start_date - 1
  let prev_start := prev_end - (end_date - start_date)
  ⟨start_date, end_date, prev_start, prev_end⟩

/-- The window-pair invariant of spec §3: the previous window ends exactly one
day before the current one starts, and both windows have the same length. -/
def windowInvariant (w : Windows) : Prop :=
  w.prev_end = w.start_date - 1 ∧
  w.prev_end - w.prev_start = w.end_date - w.start_date

/-- Embedding of `calculate_percentage_change(current, previous)` (lines 64–70):
`None` when `previous == 0`, otherwise `(current - previous) / previous * 100`.
Numbers are embedded as rationals; the values the source feeds in are ints. -/
def calculate_percentage_change (current previous : ℚ) : Option ℚ :=
  if previous = 0 then none
  else some ((current - previous) / previous * 100)

/-- Python exceptions raised at the call sites the source touches:
`google.api_core.exceptions.InvalidArgument`, `googleapiclient.errors.HttpError`,
`TypeError` (raised when a numeric format spec is applied to `None`), and a
catch-all for any other exception. -/
inductive Exc where
  | invalidArgument
  | httpError
  | typeError
  | other
  deriving Repr, DecidableEq

/-- One entry of `order_bys` in a GA4 report request. -/
structure GA4OrderBy where
  metric_name : String
  desc : Bool
  deriving Repr, DecidableEq

/-- The GA4 `run_report` request dict as the source builds it: `property`,
`date_ranges`, `dimensions`, `metrics`, `order_bys`, `limit`. -/
structure GA4Request where
  property : String
  date_ranges : List (String × String)
  dimensions : List String
  metrics : List String
  order_bys : List GA4OrderBy
  limit : ℕ
  deriving Repr, DecidableEq

/-- One row of a GA4 report response: dimension values and metric values. -/
structure GA4Row where
  dimension_values : List String
  metric_values : List ℤ
  deriving Repr, DecidableEq

/-- A GA4 report response, reduced to its rows. -/
structure GA4Response where
  rows : List GA4Row
  deriving Repr, DecidableEq

/-- One record of the list returned by `fetch_ga4_pageviews`: the primary path
yields pageTitle/screenClass/views dicts, the fallback path yields
pagePath/views dicts. -/
inductive PVRecord where
  | titled (pageTitle screenClass : String) (views : ℤ)
  | pathed (pagePath : String) (views : ℤ)
  deriving Repr, DecidableEq

/-- The primary request of `fetch_ga4_pageviews` (lines 156–163):
dimensions pageTitle and screenClass, metric screenPageViews, ordered by
screenPageViews descending, limited to `top_n` (default 10 in the source). -/
def pageviews_primary_req (property_id start_date end_date : String) (top_n : ℕ) :
    GA4Request :=
  ⟨"properties/" ++ property_id, [(start_date, end_date)],
    ["pageTitle", "screenClass"], ["screenPageViews"],
    [⟨"screenPageViews", true⟩], top_n⟩

/-- The fallback request of `fetch_ga4_pageviews` (lines 174–181): the single
coarser dimension pagePath, with the same metric, ordering and limit. -/
def pageviews_fallback_req (property_id start_date end_date : String) (top_n : ℕ) :
    GA4Request :=
  ⟨"properties/" ++ property_id, [(start_date, end_date)],
    ["pagePath"], ["screenPageViews"],
    [⟨"screenPageViews", true⟩], top_n⟩

/-- Embedding of `fetch_ga4_pageviews` (lines 150–187).  The GA4 client is the
parameter `run_report`; `except InvalidArgument` around the primary call is
the match on `Except.error Exc.invalidArgument`; any other exception, and any
exception of the fallback call, propagates.  List indexing `r.x[i]` is
totalised with `getD` (the source only indexes positions its own request makes
the backend populate). -/
def fetch_ga4_pageviews (run_report : GA4Request → Except Exc GA4Response)
    (property_id start_date end_date : String) (top_n : ℕ) :
    Except Exc (List PVRecord) :=
  match run_report (pageviews_primary_req property_id start_date end_date top_n) with
  | Except.ok resp =>
      Except.ok (resp.rows.map fun r =>
        PVRecord.titled (r.dimension_values.getD 0 "") (r.dimension_values.getD 1 "")
          (r.metric_values.getD 0 0))
  | Except.error Exc.invalidArgument =>
      match run_report (pageviews_fallback_req property_id start_date end_date top_n) with
      | Except.ok resp2 =>
          Except.ok (resp2.rows.map fun r =>
            PVRecord.pathed (r.dimension_values.getD 0 "") (r.metric_values.getD 0 0))
      | Except.error e => Except.error e
  | Except.error e => Except.error e

/-- The Search Console `searchanalytics().query` body as the source builds it
(lines 194–199): `startDate`, `endDate`, `dimensions`, `rowLimit`. -/
structure SCBody where
  startDate : String
  endDate : String
  dimensions : List String
  rowLimit : ℕ
  deriving Repr, DecidableEq

/-- One row of a Search Console response: `keys` (one value per requested
dimension) and an optional `clicks` count (`r.get` supplies 0 when absent). -/
structure SCRow where
  keys : List String
  clicks : Option ℤ
  deriving Repr, DecidableEq

/-- A Search Console response; `rows` is absent when there is no data
(`resp.get` supplies the empty list). -/
structure SCResponse where
  rows : Option (List SCRow)
  deriving Repr, DecidableEq

/-- One record of the list returned by `fetch_sc_organic_traffic`. -/
structure SCRecord where
  page : String
  query : String
  clicks : ℤ
  deriving Repr, DecidableEq

/-- The request body built by `fetch_sc_organic_traffic` (lines 194–199). -/
def sc_query_body (start_date end_date : String) (row_limit : ℕ) : SCBody :=
  ⟨start_date, end_date, ["page", "query"], row_limit⟩

/-- Embedding of `fetch_sc_organic_traffic` (lines 193–201, default
`row_limit=500`).  The Search Console client is the parameter `query`
(first argument the `siteUrl`); an exception from `.execute()` propagates
(the call site guards it with `except HttpError`). -/
def fetch_sc_organic_traffic (query : String → SCBody → Except Exc SCResponse)
    (site_url start_date end_date : String) (row_limit : ℕ) :
    Except Exc (List SCRecord) :=
  match query site_url (sc_query_body start_date end_date row_limit) with
  | Except.ok resp =>
      Except.ok ((resp.rows.getD []).map fun r =>
        ⟨r.keys.getD 0 "", r.keys.getD 1 "", r.clicks.getD 0⟩)
  | Except.error e => Except.error e

/-- The `timeRange` part of the Business Profile Performance request body. -/
structure GmbTimeRange where
  startTime : String
  endTime : String
  deriving Repr, DecidableEq

/-- The `basicRequest` part of the Business Profile Performance request body:
`metricRequests` and `timeRange` (lines 212–222). -/
structure GmbBasicRequest where
  metricRequests : List String
  timeRange : GmbTimeRange
  deriving Repr, DecidableEq

/-- The request body built by `fetch_gmb_metrics` (lines 212–222). -/
structure GmbRequestBody where
  basicRequest : GmbBasicRequest
  deriving Repr, DecidableEq

/-- The body `fetch_gmb_metrics` builds: an empty `metricRequests` list (the
source leaves only a TODO comment where metrics would go) and a `timeRange`
derived from the two dates. -/
def gmb_request_body (start_date end_date : String) : GmbRequestBody :=
  ⟨⟨[], ⟨start_date ++ "T00:00:00Z", end_date ++ "T23:59:59Z"⟩⟩⟩

/-- Embedding of `fetch_gmb_metrics` (lines 207–230).  The client call
`gmb_service.locations().reportInsights(name=..., body=...).execute()` is the
parameter `reportInsights`; the function wraps it in no `try`/`except`, so its
result — including any raised exception — is returned unchanged. -/
def fetch_gmb_metrics {α : Type}
    (reportInsights : String → GmbRequestBody → Except Exc α)
    (location_id start_date end_date : String) : Except Exc α :=
  reportInsights ("locations/" ++ location_id) (gmb_request_body start_date end_date)

/-- One rendered dashboard section (the content widget under a subheader):
either populated with data or showing an error message. -/
inductive DSection where
  | rendered (title : String)
  | errorMarker (title : String)
  deriving Repr, DecidableEq

/-- Does a section carry an error marker instead of data? -/
def DSection.isErrorMarker : DSection → Bool
  | DSection.rendered _ => false
  | DSection.errorMarker _ => true

/-- The outcomes of the seven provider calls the module-level script makes
(two `fetch_ga4_total_users` calls, `fetch_ga4_traffic_acquisition`,
`fetch_sc_organic_traffic`, `fetch_ga4_active_users_by_country`,
`fetch_ga4_pageviews` after its internal fallback, `fetch_gmb_metrics`). -/
structure FetchResults where
  cur_users : Except Exc ℤ
  prev_users : Except Exc ℤ
  traffic : Except Exc (List (String × ℤ))
  organic : Except Exc (List SCRecord)
  country : Except Exc (List (String × ℤ))
  pageviews : Except Exc (List PVRecord)
  gmb : Except Exc Unit

/-- Embedding of the f-string `delta` formatting on line 250: applying the
numeric format spec `.2f` to `None` raises `TypeError`; on a number it
produces a percentage string (the exact decimal rendering is irrelevant to
the claims and is abbreviated by `toString`). -/
def format_delta : Option ℚ → Except Exc String
  | none => Except.error Exc.typeError
  | some q => Except.ok (toString q ++ "%")

/-- Tail of the module-level script from the Pages and Screens block on
(lines 274–286): only `InvalidArgument` is caught there; the GMB fetch is
unguarded. -/
def dashboard_tail (f : FetchResults) (acc : List DSection) :
    List DSection × Option Exc :=
  match f.pageviews with
  | Except.error Exc.invalidArgument =>
      match f.gmb with
      | Except.error e =>
          (acc ++ [DSection.errorMarker "Pages & Screens Views"], some e)
      | Except.ok _ =>
          (acc ++ [DSection.errorMarker "Pages & Screens Views",
            DSection.rendered "Google My Business Analytics"], none)
  | Except.error e => (acc, some e)
  | Except.ok _ =>
      match f.gmb with
      | Except.error e =>
          (acc ++ [DSection.rendered "Pages & Screens Views"], some e)
      | Except.ok _ =>
          (acc ++ [DSection.rendered "Pages & Screens Views",
            DSection.rendered "Google My Business Analytics"], none)

/-- Embedding of the module-level dashboard script (lines 236–286): the
sections rendered, in order, and the first uncaught exception, if any (an
uncaught exception stops the script; everything after it is not rendered).
Only two call sites are guarded: the Search Console block catches `HttpError`
and the pageviews block catches `InvalidArgument`; every other failure
propagates.  The Total Users metric formats its delta before rendering, so a
`None` delta raises `TypeError` there (line 250). -/
def dashboard (f : FetchResults) : List DSection × Option Exc :=
  match f.cur_users with
  | Except.error e => ([], some e)
  | Except.ok cur =>
    match f.prev_users with
    | Except.error e => ([], some e)
    | Except.ok prev =>
      match format_delta (calculate_percentage_change (cur : ℚ) (prev : ℚ)) with
      | Except.error e => ([], some e)
      | Except.ok _ =>
        match f.traffic with
        | Except.error e => ([DSection.rendered "Total Users"], some e)
        | Except.ok _ =>
          match f.organic with
          | Except.error Exc.httpError =>
              match f.country with
              | Except.error e =>
                  ([DSection.rendered "Total Users",
                    DSection.rendered "Traffic Acquisition by Channel",
                    DSection.errorMarker "Google Organic Search Traffic (Clicks)"],
                    some e)
              | Except.ok _ =>
                  dashboard_tail f
                    [DSection.rendered "Total Users",
                      DSection.rendered "Traffic Acquisition by Channel",
                      DSection.errorMarker "Google Organic Search Traffic (Clicks)",
                      DSection.rendered "Active Users by Country (Top 5)"]
          | Except.error e =>
              ([DSection.rendered "Total Users",
                DSection.rendered "Traffic Acquisition by Channel"], some e)
          | Except.ok _ =>
              match f.country with
              | Except.error e =>
                  ([DSection.rendered "Total Users",
                    DSection.rendered "Traffic Acquisition by Channel",
                    DSection.rendered "Google Organic Search Traffic (Clicks)"],
                    some e)
              | Except.ok _ =>
                  dashboard_tail f
                    [DSection.rendered "Total Users",
                      DSection.rendered "Traffic Acquisition by Channel",
                      DSection.rendered "Google Organic Search Traffic (Clicks)",
                      DSection.rendered "Active Users by Country (Top 5)"]

/-- Test fixture: a GA4 backend that rejects the two-dimension pageviews
request as an invalid argument and answers anything else with an empty
report. -/
def pvBackendInvalid : GA4Request → Except Exc GA4Response := fun q =>
  if q = pageviews_primary_req "356205245" "2025-01-01" "2025-01-31" 10
  then Except.error Exc.invalidArgument else Except.ok ⟨[]⟩

/-- Test fixture: a GA4 backend that fails the pageviews primary request with
an HTTP error and answers anything else with an empty report. -/
def pvBackendHttp : GA4Request → Except Exc GA4Response := fun q =>
  if q = pageviews_primary_req "356205245" "2025-01-01" "2025-01-31" 10
  then Except.error Exc.httpError else Except.ok ⟨[]⟩

/-- Test fixture: a Search Console backend returning one row. -/
def scBackendOne : String → SCBody → Except Exc SCResponse := fun _ _ =>
  Except.ok ⟨some [⟨["https://www.salasarservices.com/", "salasar"], some 3⟩]⟩

/-- Test fixture: provider outcomes in which only the GMB fetch fails. -/
def fetchesGmbFail : FetchResults :=
  ⟨Except.ok 150, Except.ok 100, Except.ok [], Except.ok [], Except.ok [],
    Except.ok [], Except.error Exc.httpError⟩

theorem isLeap_iff (y : ℕ) :
    isLeap y = true ↔ ((y % 4 = 0 ∧ y % 100 ≠ 0) ∨ y % 400 = 0) := by
  simp [isLeap]

theorem leapsBefore_succ (y : ℕ) :
    leapsBefore (y + 1) = leapsBefore y + (if isLeap y then 1 else 0) := by
  simp only [leapsBefore]
  by_cases hb : isLeap y = true
  · rw [if_pos hb]
    have h := (isLeap_iff y).mp hb
    omega
  · rw [if_neg hb]
    have h : ¬((y % 4 = 0 ∧ y % 100 ≠ 0) ∨ y % 400 = 0) :=
      fun hc => hb ((isLeap_iff y).mpr hc)
    omega

theorem daysBeforeYear_succ (y : ℕ) :
    daysBeforeYear (y + 1) = daysBeforeYear y + (if isLeap y then 366 else 365) := by
  simp only [daysBeforeYear, leapsBefore_succ]
  by_cases hb : isLeap y = true <;> simp [hb] <;> ring

theorem daysBeforeMonth_succ (y m : ℕ) (h1 : 1 ≤ m) :
    daysBeforeMonth y (m + 1) = daysBeforeMonth y m + daysInMonth y m := by
  cases m with
  | zero => omega
  | succ k => simp [daysBeforeMonth]

theorem daysBeforeMonth_twelve (y : ℕ) :
    daysBeforeMonth y 12 = if isLeap y then 335 else 334 := by
  by_cases hb : isLeap y = true <;>
    simp [daysBeforeMonth, daysInMonth, hb]

/-- Stepping to the first day of the next month lands one day after the last
day of the current month. -/
theorem toDay_addMonth (y m : ℕ) (h1 : 1 ≤ m) (h2 : m ≤ 12) :
    toDay (addMonth y m).1 (addMonth y m).2 1 = toDay y m (daysInMonth y m) + 1 := by
  by_cases hm : m = 12
  · subst hm
    show toDay (y + 1) 1 1 = toDay y 12 (daysInMonth y 12) + 1
    simp only [toDay]
    have hy := daysBeforeYear_succ y
    have h31 : daysInMonth y 12 = 31 := rfl
    have h12 := daysBeforeMonth_twelve y
    have hb1 : daysBeforeMonth (y + 1) 1 = 0 := rfl
    by_cases hb : isLeap y = true
    · rw [if_pos hb] at hy
      rw [if_pos hb] at h12
      omega
    · rw [if_neg hb] at hy
      rw [if_neg hb] at h12
      omega
  · simp only [addMonth, if_neg hm, toDay]
    have hms := daysBeforeMonth_succ y m h1
    omega

theorem windowInvariant_mk (s e : ℤ) :
    windowInvariant ⟨s, e, s - 1 - (e - s), s - 1⟩ :=
  ⟨rfl, by ring⟩

/-- C1: for every positive `lengthDays` and reference date (fixed-length mode,
which the source instantiates at 30 days) and for every selectable calendar
month, the produced window pair satisfies `previous.end = current.start - 1`
and `previous.end - previous.start = current.end - current.start`. -/
theorem window_pair_invariant (lengthDays referenceDate today : ℤ) (y m : ℕ)
    (hL : 0 < lengthDays) (hm1 : 1 ≤ m) (hm2 : m ≤ 12) :
    windowInvariant (computeWindows referenceDate lengthDays) ∧
    windowInvariant (get_date_ranges false today y m) ∧
    windowInvariant (get_date_ranges true today y m) :=
  ⟨windowInvariant_mk _ _, windowInvariant_mk _ _, windowInvariant_mk _ _⟩

theorem window_pair_invariant_witness :
    windowInvariant (computeWindows 0 30) ∧
    windowInvariant (get_date_ranges false 0 2025 3) ∧
    windowInvariant (get_date_ranges true 0 2025 3) :=
  window_pair_invariant 30 0 0 2025 3 (by norm_num) (by norm_num) (by norm_num)

/-- C2: `calculate_percentage_change x 0 = none` for every `x` (including
`x = 0`), and the zero test is a strict equality check: every nonzero
previous value, however small, yields a numeric result. -/
theorem percent_change_zero_previous (x p : ℚ) (hp : p ≠ 0) :
    calculate_percentage_change x 0 = none ∧
    (calculate_percentage_change x p).isSome = true := by
  constructor
  · simp [calculate_percentage_change]
  · simp [calculate_percentage_change, hp]

theorem percent_change_zero_previous_witness :
    calculate_percentage_change 0 0 = none ∧
    (calculate_percentage_change 0 (1 / 1000000)).isSome = true :=
  percent_change_zero_previous 0 (1 / 1000000) (by norm_num)

/-- C3: for every `previous ≠ 0`, `calculate_percentage_change` returns
`(current - previous) / previous * 100`; in particular `150,100 ↦ 50`,
`50,100 ↦ -50`, `0,100 ↦ -100`; and negative arguments still produce a value
(the function is total on `previous ≠ 0`, it cannot raise). -/
theorem percent_change_formula (current previous : ℚ) (hp : previous ≠ 0) :
    calculate_percentage_change current previous =
      some ((current - previous) / previous * 100) ∧
    calculate_percentage_change 150 100 = some 50 ∧
    calculate_percentage_change 50 100 = some (-50) ∧
    calculate_percentage_change 0 100 = some (-100) ∧
    (calculate_percentage_change (-50) (-100)).isSome = true := by
  refine ⟨by simp [calculate_percentage_change, hp], ?_, ?_, ?_, ?_⟩ <;>
    norm_num [calculate_percentage_change]

theorem percent_change_formula_witness :
    calculate_percentage_change 1 1 = some ((1 - 1) / 1 * 100) ∧
    calculate_percentage_change 150 100 = some 50 ∧
    calculate_percentage_change 50 100 = some (-50) ∧
    calculate_percentage_change 0 100 = some (-100) ∧
    (calculate_percentage_change (-50) (-100)).isSome = true :=
  percent_change_formula 1 1 (by norm_num)

/-- C4: in calendar-month mode the current window runs from the first to the
last day of the selected month, the previous window's span is forced equal to
the current window's (`prev_start = prev_end - (end - start)`), and the
previous window is not the previous calendar month (for March 2025 the
previous window starts on 2025-01-29, not on 2025-02-01). -/
theorem month_mode_window_shape (y m : ℕ) (hm1 : 1 ≤ m) (hm2 : m ≤ 12) :
    (get_date_ranges true 0 y m).start_date = toDay y m 1 ∧
    (get_date_ranges true 0 y m).end_date = toDay y m (daysInMonth y m) ∧
    (get_date_ranges true 0 y m).prev_start =
      (get_date_ranges true 0 y m).prev_end -
        ((get_date_ranges true 0 y m).end_date -
          (get_date_ranges true 0 y m).start_date) ∧
    (get_date_ranges true 0 2025 3).prev_start ≠ toDay 2025 2 1 := by
  refine ⟨rfl, ?_, rfl, by decide⟩
  show toDay (addMonth y m).1 (addMonth y m).2 1 - 1 = toDay y m (daysInMonth y m)
  rw [toDay_addMonth y m hm1 hm2]
  ring

theorem month_mode_window_shape_witness :
    (get_date_ranges true 0 2025 3).start_date = toDay 2025 3 1 ∧
    (get_date_ranges true 0 2025 3).end_date = toDay 2025 3 (daysInMonth 2025 3) ∧
    (get_date_ranges true 0 2025 3).prev_start =
      (get_date_ranges true 0 2025 3).prev_end -
        ((get_date_ranges true 0 2025 3).end_date -
          (get_date_ranges true 0 2025 3).start_date) ∧
    (get_date_ranges true 0 2025 3).prev_start ≠ toDay 2025 2 1 :=
  month_mode_window_shape 2025 3 (by norm_num) (by norm_num)

/-- C5 counterexample: `fetch_gmb_metrics` does not capture upstream failures
in its result; with a backend whose call raises a structured backend error,
the exception propagates out of the fetch unchanged instead of being returned
as an error-marker value. -/
theorem gmb_error_propagates_cex :
    fetch_gmb_metrics
      (fun (_ : String) (_ : GmbRequestBody) =>
        (Except.error Exc.httpError : Except Exc Unit))
      "5476847919589288630" "2025-01-01" "2025-01-31" =
      Except.error Exc.httpError := rfl

/-- C5 amended: `fetch_gmb_metrics` wraps its client call in no handler at
all; whenever the backend call fails — with a structured backend error or any
other exception — that exception propagates out of the fetch (and its call
site on line 285 is equally unguarded). -/
theorem gmb_error_propagates {α : Type} (ex : Exc)
    (reportInsights : String → GmbRequestBody → Except Exc α)
    (location_id start_date end_date : String)
    (hfail : ∀ nm body, reportInsights nm body = Except.error ex) :
    fetch_gmb_metrics reportInsights location_id start_date end_date =
      Except.error ex :=
  hfail _ _

theorem gmb_error_propagates_witness :
    fetch_gmb_metrics
      (fun (_ : String) (_ : GmbRequestBody) =>
        (Except.error Exc.invalidArgument : Except Exc Unit))
      "5476847919589288630" "2025-02-01" "2025-02-28" =
      Except.error Exc.invalidArgument :=
  gmb_error_propagates Exc.invalidArgument _ _ _ _ (fun _ _ => rfl)

/-- C10: the request body `fetch_gmb_metrics` builds always carries an empty
`metricRequests` list — no named metric is ever requested — and two bodies
with the same time range are identical, so only the time range varies with
the inputs (the location enters only the URL path, never the body). -/
theorem gmb_empty_metric_requests (s e s2 e2 : String)
    (hsame : (gmb_request_body s e).basicRequest.timeRange =
      (gmb_request_body s2 e2).basicRequest.timeRange) :
    (gmb_request_body s e).basicRequest.metricRequests = ([] : List String) ∧
    (gmb_request_body s2 e2).basicRequest.metricRequests = ([] : List String) ∧
    (gmb_request_body s e).basicRequest.timeRange =
      ⟨s ++ "T00:00:00Z", e ++ "T23:59:59Z"⟩ ∧
    gmb_request_body s e = gmb_request_body s2 e2 :=
  ⟨rfl, rfl, rfl,
    congrArg (fun tr => GmbRequestBody.mk ⟨[], tr⟩) hsame⟩

theorem gmb_empty_metric_requests_witness :
    (gmb_request_body "2025-01-01" "2025-01-31").basicRequest.metricRequests =
      ([] : List String) ∧
    (gmb_request_body "2025-01-01" "2025-01-31").basicRequest.metricRequests =
      ([] : List String) ∧
    (gmb_request_body "2025-01-01" "2025-01-31").basicRequest.timeRange =
      ⟨"2025-01-01" ++ "T00:00:00Z", "2025-01-31" ++ "T23:59:59Z"⟩ ∧
    gmb_request_body "2025-01-01" "2025-01-31" =
      gmb_request_body "2025-01-01" "2025-01-31" :=
  gmb_empty_metric_requests "2025-01-01" "2025-01-31" "2025-01-01" "2025-01-31" rfl

/-- C7: `fetch_ga4_pageviews` first issues the pageTitle+screenClass request;
exactly when the backend rejects it as an invalid argument it issues one
fallback request grouped by pagePath with the same metric, ordering and
limit, succeeding iff the fallback succeeds (an error then escapes iff the
fallback failed); a primary failure of any other kind escapes unchanged even
when the fallback request would have succeeded. -/
theorem pageviews_fallback (rr rr2 : GA4Request → Except Exc GA4Response)
    (p s e : String) (n : ℕ) (ex2 : Exc)
    (hPrim : rr (pageviews_primary_req p s e n) = Except.error Exc.invalidArgument)
    (hex : ex2 ≠ Exc.invalidArgument)
    (hPrim2 : rr2 (pageviews_primary_req p s e n) = Except.error ex2)
    (hrest2 : ∀ q, q ≠ pageviews_primary_req p s e n → rr2 q = Except.ok ⟨[]⟩) :
    (pageviews_primary_req p s e n).dimensions = ["pageTitle", "screenClass"] ∧
    (pageviews_fallback_req p s e n).dimensions = ["pagePath"] ∧
    (pageviews_fallback_req p s e n).metrics = (pageviews_primary_req p s e n).metrics ∧
    (pageviews_fallback_req p s e n).order_bys = (pageviews_primary_req p s e n).order_bys ∧
    (pageviews_fallback_req p s e n).limit = (pageviews_primary_req p s e n).limit ∧
    (∀ resp2, rr (pageviews_fallback_req p s e n) = Except.ok resp2 →
      fetch_ga4_pageviews rr p s e n =
        Except.ok (resp2.rows.map fun r =>
          PVRecord.pathed (r.dimension_values.getD 0 "") (r.metric_values.getD 0 0))) ∧
    (∀ ex, rr (pageviews_fallback_req p s e n) = Except.error ex →
      fetch_ga4_pageviews rr p s e n = Except.error ex) ∧
    fetch_ga4_pageviews rr2 p s e n = Except.error ex2 := by
  refine ⟨rfl, rfl, rfl, rfl, rfl, ?_, ?_, ?_⟩
  · intro resp2 hfb
    simp [fetch_ga4_pageviews, hPrim, hfb]
  · intro ex hfb
    simp [fetch_ga4_pageviews, hPrim, hfb]
  · cases ex2 with
    | invalidArgument => exact absurd rfl hex
    | httpError => simp [fetch_ga4_pageviews, hPrim2]
    | typeError => simp [fetch_ga4_pageviews, hPrim2]
    | other => simp [fetch_ga4_pageviews, hPrim2]

theorem pageviews_fallback_witness :
    fetch_ga4_pageviews pvBackendInvalid "356205245" "2025-01-01" "2025-01-31" 10 =
      Except.ok ([] : List PVRecord) ∧
    fetch_ga4_pageviews pvBackendHttp "356205245" "2025-01-01" "2025-01-31" 10 =
      Except.error Exc.httpError := by
  have h := pageviews_fallback pvBackendInvalid pvBackendHttp
    "356205245" "2025-01-01" "2025-01-31" 10 Exc.httpError
    (by simp [pvBackendInvalid]) (by decide) (by simp [pvBackendHttp])
    (fun q hq => by simp [pvBackendHttp, hq])
  have hne : pageviews_fallback_req "356205245" "2025-01-01" "2025-01-31" 10 ≠
      pageviews_primary_req "356205245" "2025-01-01" "2025-01-31" 10 := by
    simp [pageviews_fallback_req, pageviews_primary_req]
  have hfb : pvBackendInvalid
      (pageviews_fallback_req "356205245" "2025-01-01" "2025-01-31" 10) =
      Except.ok ⟨[]⟩ := by
    simp [pvBackendInvalid, hne]
  exact ⟨by simpa using h.2.2.2.2.2.1 ⟨[]⟩ hfb, h.2.2.2.2.2.2.2⟩

/-- C8: `fetch_sc_organic_traffic` sends a body with dimensions page and
query and `rowLimit = row_limit`, reshapes each returned row into a
page/query/clicks record (clicks defaulting to 0), and — the backend honoring
the row limit it was sent — never returns more than `row_limit` records, with
no error raised for the truncation. -/
theorem sc_rows_capped (query : String → SCBody → Except Exc SCResponse)
    (site_url s e : String) (limit : ℕ) (resp : SCResponse)
    (hok : query site_url (sc_query_body s e limit) = Except.ok resp)
    (hcap : (resp.rows.getD []).length ≤ limit) :
    (sc_query_body s e limit).dimensions = ["page", "query"] ∧
    (sc_query_body s e limit).rowLimit = limit ∧
    fetch_sc_organic_traffic query site_url s e limit =
      Except.ok ((resp.rows.getD []).map fun r =>
        (⟨r.keys.getD 0 "", r.keys.getD 1 "", r.clicks.getD 0⟩ : SCRecord)) ∧
    ∀ recs, fetch_sc_organic_traffic query site_url s e limit = Except.ok recs →
      recs.length ≤ limit := by
  have hfetch : fetch_sc_organic_traffic query site_url s e limit =
      Except.ok ((resp.rows.getD []).map fun r =>
        (⟨r.keys.getD 0 "", r.keys.getD 1 "", r.clicks.getD 0⟩ : SCRecord)) := by
    simp [fetch_sc_organic_traffic, hok]
  refine ⟨rfl, rfl, hfetch, ?_⟩
  intro recs hrecs
  rw [hfetch] at hrecs
  injection hrecs with h
  rw [← h, List.length_map]
  exact hcap

theorem sc_rows_capped_witness :
    fetch_sc_organic_traffic scBackendOne "https://www.salasarservices.com/"
        "2025-01-01" "2025-01-31" 500 =
      Except.ok [(⟨"https://www.salasarservices.com/", "salasar", 3⟩ : SCRecord)] ∧
    ([(⟨"https://www.salasarservices.com/", "salasar", 3⟩ : SCRecord)]).length ≤ 500 := by
  have h := sc_rows_capped scBackendOne "https://www.salasarservices.com/"
    "2025-01-01" "2025-01-31" 500
    ⟨some [⟨["https://www.salasarservices.com/", "salasar"], some 3⟩]⟩
    rfl (by decide)
  exact ⟨h.2.2.1, h.2.2.2 _ h.2.2.1⟩

/-- C6 counterexample: with every provider call succeeding except the GMB
fetch (which raises an HTTP error), the script does not produce one result
per metric section with a single error marker — it aborts: only the five
sections before the GMB block render, no error marker appears, and the
exception escapes. -/
theorem dashboard_one_failure_cex :
    dashboard fetchesGmbFail =
      ([DSection.rendered "Total Users",
        DSection.rendered "Traffic Acquisition by Channel",
        DSection.rendered "Google Organic Search Traffic (Clicks)",
        DSection.rendered "Active Users by Country (Top 5)",
        DSection.rendered "Pages & Screens Views"], some Exc.httpError) ∧
    ((dashboard fetchesGmbFail).1.filter fun s => s.isErrorMarker).length = 0 ∧
    (dashboard fetchesGmbFail).1.length ≠ 6 := by
  refine ⟨by decide, by decide, by decide⟩

/-- C6 amended: only the Search Console block (catching `HttpError`) and the
pageviews block (catching `InvalidArgument`) convert a failing call into an
error marker while every other section still renders; a failure — of any
exception kind — in any of the five unguarded provider calls (total users
current, total users previous, traffic acquisition, country breakdown, GMB)
aborts the script at that point, truncating the report instead of marking
the failed metric. -/
theorem dashboard_guarded_failures (cu pu : ℤ) (t : List (String × ℤ))
    (o : List SCRecord) (c : List (String × ℤ)) (pv : List PVRecord) (ex : Exc)
    (hpu : pu ≠ 0) :
    dashboard ⟨Except.ok cu, Except.ok pu, Except.ok t, Except.error Exc.httpError,
        Except.ok c, Except.ok pv, Except.ok ()⟩ =
      ([DSection.rendered "Total Users",
        DSection.rendered "Traffic Acquisition by Channel",
        DSection.errorMarker "Google Organic Search Traffic (Clicks)",
        DSection.rendered "Active Users by Country (Top 5)",
        DSection.rendered "Pages & Screens Views",
        DSection.rendered "Google My Business Analytics"], none) ∧
    dashboard ⟨Except.ok cu, Except.ok pu, Except.ok t, Except.ok o,
        Except.ok c, Except.error Exc.invalidArgument, Except.ok ()⟩ =
      ([DSection.rendered "Total Users",
        DSection.rendered "Traffic Acquisition by Channel",
        DSection.rendered "Google Organic Search Traffic (Clicks)",
        DSection.rendered "Active Users by Country (Top 5)",
        DSection.errorMarker "Pages & Screens Views",
        DSection.rendered "Google My Business Analytics"], none) ∧
    dashboard ⟨Except.error ex, Except.ok pu, Except.ok t, Except.ok o,
        Except.ok c, Except.ok pv, Except.ok ()⟩ = ([], some ex) ∧
    dashboard ⟨Except.ok cu, Except.error ex, Except.ok t, Except.ok o,
        Except.ok c, Except.ok pv, Except.ok ()⟩ = ([], some ex) ∧
    dashboard ⟨Except.ok cu, Except.ok pu, Except.error ex, Except.ok o,
        Except.ok c, Except.ok pv, Except.ok ()⟩ =
      ([DSection.rendered "Total Users"], some ex) ∧
    dashboard ⟨Except.ok cu, Except.ok pu, Except.ok t, Except.ok o,
        Except.error ex, Except.ok pv, Except.ok ()⟩ =
      ([DSection.rendered "Total Users",
        DSection.rendered "Traffic Acquisition by Channel",
        DSection.rendered "Google Organic Search Traffic (Clicks)"], some ex) ∧
    dashboard ⟨Except.ok cu, Except.ok pu, Except.ok t, Except.ok o,
        Except.ok c, Except.ok pv, Except.error ex⟩ =
      ([DSection.rendered "Total Users",
        DSection.rendered "Traffic Acquisition by Channel",
        DSection.rendered "Google Organic Search Traffic (Clicks)",
        DSection.rendered "Active Users by Country (Top 5)",
        DSection.rendered "Pages & Screens Views"], some ex) := by
  have hq : ((pu : ℚ)) ≠ 0 := Int.cast_ne_zero.mpr hpu
  refine ⟨?_, ?_, ?_, ?_, ?_, ?_, ?_⟩ <;>
    simp [dashboard, dashboard_tail, format_delta, calculate_percentage_change, hq]

theorem dashboard_guarded_failures_witness :
    dashboard ⟨Except.ok 150, Except.ok 100, Except.ok [], Except.error Exc.httpError,
        Except.ok [], Except.ok [], Except.ok ()⟩ =
      ([DSection.rendered "Total Users",
        DSection.rendered "Traffic Acquisition by Channel",
        DSection.errorMarker "Google Organic Search Traffic (Clicks)",
        DSection.rendered "Active Users by Country (Top 5)",
        DSection.rendered "Pages & Screens Views",
        DSection.rendered "Google My Business Analytics"], none) ∧
    dashboard ⟨Except.ok 150, Except.ok 100, Except.ok [], Except.ok [],
        Except.ok [], Except.error Exc.invalidArgument, Except.ok ()⟩ =
      ([DSection.rendered "Total Users",
        DSection.rendered "Traffic Acquisition by Channel",
        DSection.rendered "Google Organic Search Traffic (Clicks)",
        DSection.rendered "Active Users by Country (Top 5)",
        DSection.errorMarker "Pages & Screens Views",
        DSection.rendered "Google My Business Analytics"], none) ∧
    dashboard ⟨Except.error Exc.other, Except.ok 100, Except.ok [], Except.ok [],
        Except.ok [], Except.ok [], Except.ok ()⟩ = ([], some Exc.other) ∧
    dashboard ⟨Except.ok 150, Except.error Exc.other, Except.ok [], Except.ok [],
        Except.ok [], Except.ok [], Except.ok ()⟩ = ([], some Exc.other) ∧
    dashboard ⟨Except.ok 150, Except.ok 100, Except.error Exc.other, Except.ok [],
        Except.ok [], Except.ok [], Except.ok ()⟩ =
      ([DSection.rendered "Total Users"], some Exc.other) ∧
    dashboard ⟨Except.ok 150, Except.ok 100, Except.ok [], Except.ok [],
        Except.error Exc.other, Except.ok [], Except.ok ()⟩ =
      ([DSection.rendered "Total Users",
        DSection.rendered "Traffic Acquisition by Channel",
        DSection.rendered "Google Organic Search Traffic (Clicks)"], some Exc.other) ∧
    dashboard ⟨Except.ok 150, Except.ok 100, Except.ok [], Except.ok [],
        Except.ok [], Except.ok [], Except.error Exc.other⟩ =
      ([DSection.rendered "Total Users",
        DSection.rendered "Traffic Acquisition by Channel",
        DSection.rendered "Google Organic Search Traffic (Clicks)",
        DSection.rendered "Active Users by Country (Top 5)",
        DSection.rendered "Pages & Screens Views"], some Exc.other) :=
  dashboard_guarded_failures 150 100 [] [] [] [] Exc.other (by norm_num)

/-- C9: whenever the previous-window total-users value is 0 (and the current
fetch succeeded), `calculate_percentage_change` returns `None` and formatting
it with the `.2f` format spec on line 250 raises `TypeError`, so the script
crashes before rendering any section instead of showing the metric without a
delta. -/
theorem zero_previous_crashes (f : FetchResults) (cu : ℤ)
    (hcur : f.cur_users = Except.ok cu) (hprev : f.prev_users = Except.ok 0) :
    calculate_percentage_change (cu : ℚ) ((0 : ℤ) : ℚ) = none ∧
    dashboard f = ([], some Exc.typeError) := by
  constructor
  · simp [calculate_percentage_change]
  · simp [dashboard, hcur, hprev, format_delta, calculate_percentage_change]

theorem zero_previous_crashes_witness :
    calculate_percentage_change ((150 : ℤ) : ℚ) ((0 : ℤ) : ℚ) = none ∧
    dashboard ⟨Except.ok 150, Except.ok 0, Except.ok [], Except.ok [],
      Except.ok [], Except.ok [], Except.ok ()⟩ = ([], some Exc.typeError) :=
  zero_previous_crashes
    ⟨Except.ok 150, Except.ok 0, Except.ok [], Except.ok [],
      Except.ok [], Except.ok [], Except.ok ()⟩ 150 rfl rfl

end SeoDashboard
